import Mathlib

/-!
Verification of the passkey relying-party server (`src/server.js`) against its
natural-language specification.

The server is a thin Express application: four route handlers manipulating a
process-wide mutable state (one credential `Map` and two challenge slots), two
static well-known responders, and an opaque external WebAuthn engine
(`fido2-lib`).  We embed the handlers as pure functions from
`(engine, request body, state)` to `(state, response)`, the engine being a
record of fallible operations supplied by the environment.  All definitions
follow `src/server.js` line by line.
-/

namespace PasskeyServer

/-- A byte sequence (the model of a Node `Buffer` / raw challenge bytes).
Each entry is taken modulo 256 by the base64 encoder. -/
abbrev Bytes := List Nat

/-- JSON values, the model of the JavaScript objects the handlers serialize
with `res.json` / `JSON.stringify`. -/
inductive Json where
  | null : Json
  | str : String → Json
  | num : Int → Json
  | bool : Bool → Json
  | arr : List Json → Json
  | obj : List (String × Json) → Json
deriving Repr

mutual

/-- All string leaves occurring in a JSON document (used to state that a
document mentions a given identifier). -/
def Json.strings : Json → List String
  | .null => []
  | .str s => [s]
  | .num _ => []
  | .bool _ => []
  | .arr xs => Json.stringsOfList xs
  | .obj fs => Json.stringsOfFields fs

/-- String leaves of a list of JSON values. -/
def Json.stringsOfList : List Json → List String
  | [] => []
  | x :: xs => Json.strings x ++ Json.stringsOfList xs

/-- String leaves of the field list of a JSON object. -/
def Json.stringsOfFields : List (String × Json) → List String
  | [] => []
  | f :: fs => Json.strings f.2 ++ Json.stringsOfFields fs

end

/-- The base64 alphabet (`A-Z a-z 0-9 + /`), as used by Node's
`Buffer.prototype.toString("base64")`. -/
def b64Alphabet : List Char :=
  "ABCDEFGHIJKLMNOPQRSTUVWXYZabcdefghijklmnopqrstuvwxyz0123456789+/".toList

/-- The base64 digit for a 6-bit value. -/
def b64Char (n : Nat) : Char := b64Alphabet.getD n 'A'

/-- Standard base64 with padding, the model of
`Buffer.from(bytes).toString("base64")` (`src/server.js:47-48,63`). -/
def base64Encode : Bytes → String
  | [] => ""
  | [b0] =>
      let n0 := b0 % 256
      String.mk [b64Char (n0 / 4), b64Char ((n0 % 4) * 16)] ++ "=="
  | [b0, b1] =>
      let n0 := b0 % 256
      let n1 := b1 % 256
      String.mk [b64Char (n0 / 4), b64Char ((n0 % 4) * 16 + n1 / 16),
                 b64Char ((n1 % 16) * 4)] ++ "="
  | b0 :: b1 :: b2 :: rest =>
      let n0 := b0 % 256
      let n1 := b1 % 256
      let n2 := b2 % 256
      String.mk [b64Char (n0 / 4), b64Char ((n0 % 4) * 16 + n1 / 16),
                 b64Char ((n1 % 16) * 4 + n2 / 64), b64Char (n2 % 64)] ++
        base64Encode rest

/-- The credential record `fido2-lib` returns as `attRes.authnrData` and the
login handler later reads fields from (`src/server.js:80,101-103`).  The three
named fields are the ones the glue code reads; `rest` stands for the remaining
entries of the authenticator-data map, opaque to this layer. -/
structure AuthnrData where
  credentialPublicKey : String
  counter : Nat
  userHandle : Option Bytes
  rest : List (String × Json)
deriving Repr

/-- Registration options produced by `fido.attestationOptions()`
(`src/server.js:38`): the raw challenge plus, in `rest`, the engine-produced
fields other than `challenge` and `user` (the handler overwrites both). -/
structure RegOptions where
  challenge : Bytes
  rest : List (String × Json)
deriving Repr

/-- Assertion options produced by `fido.assertionOptions()`
(`src/server.js:60`): the raw challenge plus, in `rest`, the engine-produced
fields other than `challenge` and `allowCredentials` (the handler overwrites
both). -/
structure AsnOptions where
  challenge : Bytes
  rest : List (String × Json)
deriving Repr

/-- The expectation object passed to `fido.attestationResult`
(`src/server.js:74-78`).  `challenge` is an `Option` because
`currentRegisterChallenge` may still be `null`. -/
structure AttestationExpectations where
  challenge : Option Bytes
  origin : String
  factor : String
deriving Repr

/-- The expectation object passed to `fido.assertionResult`
(`src/server.js:97-104`). -/
structure AssertionExpectations where
  challenge : Option Bytes
  origin : String
  factor : String
  publicKey : String
  prevCounter : Nat
  userHandle : Option Bytes
deriving Repr

/-- The result of `fido.attestationResult`; the handler only reads its
`authnrData` field (`src/server.js:80`). -/
structure AttResult where
  authnrData : AuthnrData
deriving Repr

/-- The external WebAuthn engine (`fido2-lib`), an opaque collaborator: each
operation either succeeds with its result or fails with the text of the thrown
error (`e.toString()`). -/
structure Fido2Lib where
  attestationOptions : Except String RegOptions
  assertionOptions : Except String AsnOptions
  attestationResult : Json → AttestationExpectations → Except String AttResult
  assertionResult : Json → AssertionExpectations → Except String Unit

/-- The process-wide mutable state of the server: the `users` map and the two
challenge slots (`src/server.js:31-33`). -/
structure ServerState where
  users : List (String × AuthnrData)
  currentRegisterChallenge : Option Bytes
  currentLoginChallenge : Option Bytes
deriving Repr

/-- The state at process start: empty map, both challenge slots `null`
(`src/server.js:31-33`). -/
def initialState : ServerState :=
  { users := [], currentRegisterChallenge := none, currentLoginChallenge := none }

/-- JavaScript `Map.prototype.get`: the value stored under the key, if any. -/
def mapGet (m : List (String × AuthnrData)) (k : String) : Option AuthnrData :=
  (m.find? (fun p => p.1 == k)).map (·.2)

/-- JavaScript `Map.prototype.set`: update the entry in place when the key is
present, append it otherwise. -/
def mapSet (m : List (String × AuthnrData)) (k : String) (v : AuthnrData) :
    List (String × AuthnrData) :=
  if (m.find? (fun p => p.1 == k)).isSome then
    m.map (fun p => if p.1 == k then (k, v) else p)
  else
    m ++ [(k, v)]

/-- An HTTP response: status code and JSON (or plain-text, wrapped as a JSON
string) body.  `res.json(x)` is status 200 with body `x`. -/
structure HttpResponse where
  status : Nat
  body : Json
deriving Repr

/-- An incoming HTTP request, as far as the handlers can observe it. -/
structure Request where
  headers : List (String × String)
  body : Json
deriving Repr

/-- The hard-coded expected origin (`src/server.js:76,99`). -/
def expectedOrigin : String :=
  "https://guarded-fortress-75705-c422ef56e8e1.herokuapp.com"

/-- The fixed demo user identity attached by the registration-challenge
handler (`src/server.js:39-43`): id `Buffer.from("1234")`, name `testuser`,
display name `Test User`. -/
def demoUserId : Bytes := [49, 50, 51, 52]

/-- The `{status:"ok"}` success response of the verification handlers. -/
def okResponse : HttpResponse :=
  { status := 200, body := Json.obj [("status", Json.str "ok")] }

/-- The HTTP 400 `{status:"failed", error}` response of the verification
handlers' catch branches. -/
def failedResponse (e : String) : HttpResponse :=
  { status := 400, body := Json.obj [("status", Json.str "failed"), ("error", Json.str e)] }

/-- The HTTP 500 `{error}` response of the challenge handlers' catch
branches. -/
def serverErrorResponse (e : String) : HttpResponse :=
  { status := 500, body := Json.obj [("error", Json.str e)] }

/-- The body serialized by the registration-challenge handler after its
mutations (`src/server.js:39-50`): the engine-produced fields, the fixed demo
user with base64 id, and the challenge as base64 text. -/
def encodeRegOptions (o : RegOptions) : Json :=
  Json.obj (o.rest ++
    [("challenge", Json.str (base64Encode o.challenge)),
     ("user", Json.obj
        [("id", Json.str (base64Encode demoUserId)),
         ("name", Json.str "testuser"),
         ("displayName", Json.str "Test User")])])

/-- The body serialized by the login-challenge handler after its mutations
(`src/server.js:61-64`): the engine-produced fields, `allowCredentials : []`,
and the challenge as base64 text. -/
def encodeAsnOptions (o : AsnOptions) : Json :=
  Json.obj (o.rest ++
    [("allowCredentials", Json.arr []),
     ("challenge", Json.str (base64Encode o.challenge))])

/-- `GET /register-challenge` (`src/server.js:36-55`): ask the engine for
attestation options, attach the fixed demo user, store the raw challenge in
the registration slot, respond with the encoded options; on engine failure
respond 500 and leave the state untouched. -/
def registerChallengeHandler (fido : Fido2Lib) (s : ServerState) :
    ServerState × HttpResponse :=
  match fido.attestationOptions with
  | .ok registrationOptions =>
      ({ s with currentRegisterChallenge := some registrationOptions.challenge },
       { status := 200, body := encodeRegOptions registrationOptions })
  | .error e => (s, serverErrorResponse e)

/-- `GET /login-challenge` (`src/server.js:58-69`): ask the engine for
assertion options, empty the allow-list, store the raw challenge in the login
slot, respond with the encoded options; on engine failure respond 500 and
leave the state untouched. -/
def loginChallengeHandler (fido : Fido2Lib) (s : ServerState) :
    ServerState × HttpResponse :=
  match fido.assertionOptions with
  | .ok assertionOptions =>
      ({ s with currentLoginChallenge := some assertionOptions.challenge },
       { status := 200, body := encodeAsnOptions assertionOptions })
  | .error e => (s, serverErrorResponse e)

/-- The expectation object built by `POST /verify-register`
(`src/server.js:75-78`) from the current state. -/
def regExpect (s : ServerState) : AttestationExpectations :=
  { challenge := s.currentRegisterChallenge, origin := expectedOrigin, factor := "either" }

/-- `POST /verify-register` (`src/server.js:72-87`): hand the payload and the
stored registration challenge to the engine; on success store `authnrData`
under `testuser` and answer `{status:"ok"}`, on failure answer 400 and leave
the state untouched. -/
def verifyRegisterHandler (fido : Fido2Lib) (reqBody : Json) (s : ServerState) :
    ServerState × HttpResponse :=
  match fido.attestationResult reqBody (regExpect s) with
  | .ok attRes =>
      ({ s with users := mapSet s.users "testuser" attRes.authnrData }, okResponse)
  | .error e => (s, failedResponse e)

/-- The expectation object built by `POST /verify-login`
(`src/server.js:98-104`) from the current state and the stored credential. -/
def loginExpect (s : ServerState) (userData : AuthnrData) : AssertionExpectations :=
  { challenge := s.currentLoginChallenge, origin := expectedOrigin, factor := "either",
    publicKey := userData.credentialPublicKey, prevCounter := userData.counter,
    userHandle := userData.userHandle }

/-- `POST /verify-login` (`src/server.js:90-112`): fail fast with
`No registered user` when no credential is stored; otherwise hand the payload,
the stored login challenge and the stored credential to the engine and answer
`{status:"ok"}` or a 400 failure.  The state is never modified. -/
def verifyLoginHandler (fido : Fido2Lib) (reqBody : Json) (s : ServerState) :
    ServerState × HttpResponse :=
  match mapGet s.users "testuser" with
  | none => (s, failedResponse "No registered user")
  | some userData =>
      match fido.assertionResult reqBody (loginExpect s userData) with
      | .ok _ => (s, okResponse)
      | .error e => (s, failedResponse e)

/-- The configured Apple application identifier appearing in the
apple-app-site-association document (`src/server.js:118,125`). -/
def appleAppId : String :=
  "AB33BBCCU7.guarded-fortress-75705-c422ef56e8e1.herokuapp.com"

/-- The fixed document served at `/.well-known/apple-app-site-association`
(`src/server.js:116-127`). -/
def appleAASADocument : Json :=
  Json.obj
    [("webcredentials", Json.obj [("apps", Json.arr [Json.str appleAppId])]),
     ("applinks", Json.obj [("apps", Json.arr []), ("details", Json.arr [])]),
     ("activitycontinuation", Json.obj [("apps", Json.arr [Json.str appleAppId])])]

/-- `GET /.well-known/apple-app-site-association` (`src/server.js:114-128`):
send the fixed JSON document, reading neither the request nor the state. -/
def appleAASAHandler (_req : Request) (s : ServerState) :
    ServerState × HttpResponse :=
  (s, { status := 200, body := appleAASADocument })

/-! ## Concrete sample data used by the witnesses -/

/-- A sample credential record. -/
def sampleAD : AuthnrData :=
  { credentialPublicKey := "samplePublicKey", counter := 5,
    userHandle := some [7, 8], rest := [] }

/-- A sample state in which `testuser` is registered and a login challenge is
outstanding. -/
def registeredState : ServerState :=
  { users := [("testuser", sampleAD)],
    currentRegisterChallenge := some [1, 2, 3],
    currentLoginChallenge := some [4, 5, 6] }

/-- A sample engine on which every operation fails with `boom`. -/
def failingEngine : Fido2Lib :=
  { attestationOptions := .error "boom"
    assertionOptions := .error "boom"
    attestationResult := fun _ _ => .error "boom"
    assertionResult := fun _ _ => .error "boom" }

/-- A sample engine on which every operation succeeds. -/
def succeedingEngine : Fido2Lib :=
  { attestationOptions := .ok { challenge := [10, 11], rest := [] }
    assertionOptions := .ok { challenge := [12, 13], rest := [] }
    attestationResult := fun _ _ => .ok { authnrData := sampleAD }
    assertionResult := fun _ _ => .ok () }

/-- A second sample engine whose issued challenges differ from
`succeedingEngine`'s. -/
def succeedingEngineB : Fido2Lib :=
  { attestationOptions := .ok { challenge := [20, 21], rest := [] }
    assertionOptions := .ok { challenge := [22, 23], rest := [] }
    attestationResult := fun _ _ => .ok { authnrData := sampleAD }
    assertionResult := fun _ _ => .ok () }

/-! ## Claim theorems -/

/-- Claim C1: when no credential record is stored for the fixed demo user,
`POST /verify-login` answers HTTP 400 with body
`{status:"failed", error:"No registered user"}`, leaves the whole state (the
credential store and both challenge slots) unchanged, and does not invoke the
engine's assertion-verification operation — the result is the same for every
engine and every request body. -/
theorem verifyLogin_unregistered_fails_fast (s : ServerState)
    (h : mapGet s.users "testuser" = none) :
    ∀ (fido : Fido2Lib) (reqBody : Json),
      verifyLoginHandler fido reqBody s =
        (s, { status := 400,
              body := Json.obj [("status", Json.str "failed"),
                                ("error", Json.str "No registered user")] }) := by
  intro fido reqBody
  simp [verifyLoginHandler, h, failedResponse]

/-- Witness for C1: the initial state stores no credential, and there
`/verify-login` fails fast even on an engine on which every operation would
succeed. -/
theorem verifyLogin_unregistered_fails_fast_instance :
    mapGet initialState.users "testuser" = none ∧
    verifyLoginHandler succeedingEngine Json.null initialState =
      (initialState,
       { status := 400,
         body := Json.obj [("status", Json.str "failed"),
                           ("error", Json.str "No registered user")] }) :=
  ⟨rfl, verifyLogin_unregistered_fails_fast initialState rfl succeedingEngine Json.null⟩

/-- Claim C2: `POST /verify-register` is atomic.  If the engine's
registration-verification succeeds with result `a`, the returned credential
record is stored under `testuser` and the response is `{status:"ok"}`; if it
fails with any error `e`, the response is HTTP 400 with body
`{status:"failed", error:e}` and the state — in particular the credential
store — is unchanged. -/
theorem verifyRegister_atomic (fido : Fido2Lib) (reqBody : Json) (s : ServerState) :
    (∀ a, fido.attestationResult reqBody (regExpect s) = .ok a →
        verifyRegisterHandler fido reqBody s =
          ({ s with users := mapSet s.users "testuser" a.authnrData },
           { status := 200, body := Json.obj [("status", Json.str "ok")] })) ∧
    (∀ e, fido.attestationResult reqBody (regExpect s) = .error e →
        verifyRegisterHandler fido reqBody s =
          (s, { status := 400,
                body := Json.obj [("status", Json.str "failed"),
                                  ("error", Json.str e)] })) := by
  constructor
  · intro a ha
    simp [verifyRegisterHandler, ha, okResponse]
  · intro e he
    simp [verifyRegisterHandler, he, failedResponse]

/-- Witness for C2: at the initial state, a succeeding engine stores the
credential and answers ok, and a failing engine answers a 400 failure leaving
the state unchanged. -/
theorem verifyRegister_atomic_instance :
    verifyRegisterHandler succeedingEngine Json.null initialState =
      ({ initialState with users := mapSet initialState.users "testuser" sampleAD },
       { status := 200, body := Json.obj [("status", Json.str "ok")] }) ∧
    verifyRegisterHandler failingEngine Json.null initialState =
      (initialState,
       { status := 400,
         body := Json.obj [("status", Json.str "failed"),
                           ("error", Json.str "boom")] }) :=
  ⟨(verifyRegister_atomic succeedingEngine Json.null initialState).1
      { authnrData := sampleAD } rfl,
   (verifyRegister_atomic failingEngine Json.null initialState).2 "boom" rfl⟩

/-- Claim C4: on a `GET /register-challenge` request on which the engine
succeeds with options `o`, the handler attaches the fixed demo user identity
(name `testuser`, display name `Test User`, fixed id `"1234"`), stores the raw
challenge in the registration slot (touching nothing else), and returns the
engine-produced options with the challenge and the user id replaced by their
base64 text encodings (the fixed id encodes to `MTIzNA==`). -/
theorem registerChallenge_success_behavior (fido : Fido2Lib) (o : RegOptions)
    (s : ServerState) (h : fido.attestationOptions = .ok o) :
    registerChallengeHandler fido s =
      ({ s with currentRegisterChallenge := some o.challenge },
       { status := 200,
         body := Json.obj (o.rest ++
           [("challenge", Json.str (base64Encode o.challenge)),
            ("user", Json.obj
               [("id", Json.str (base64Encode demoUserId)),
                ("name", Json.str "testuser"),
                ("displayName", Json.str "Test User")])]) }) ∧
    base64Encode demoUserId = "MTIzNA==" := by
  refine ⟨?_, by decide⟩
  simp [registerChallengeHandler, h, encodeRegOptions]

/-- Witness for C4 at a concrete engine and the initial state. -/
theorem registerChallenge_success_behavior_instance :
    registerChallengeHandler succeedingEngine initialState =
      ({ initialState with currentRegisterChallenge := some [10, 11] },
       { status := 200,
         body := Json.obj
           [("challenge", Json.str (base64Encode [10, 11])),
            ("user", Json.obj
               [("id", Json.str (base64Encode demoUserId)),
                ("name", Json.str "testuser"),
                ("displayName", Json.str "Test User")])] }) ∧
    base64Encode demoUserId = "MTIzNA==" :=
  registerChallenge_success_behavior succeedingEngine
    { challenge := [10, 11], rest := [] } initialState rfl

/-- Claim C5: on a `GET /login-challenge` request on which the engine succeeds
with options `o`, the handler sets `allowCredentials` to the empty list,
stores the raw challenge in the login slot (touching nothing else), and
returns the engine-produced options with the challenge replaced by its base64
text encoding. -/
theorem loginChallenge_success_behavior (fido : Fido2Lib) (o : AsnOptions)
    (s : ServerState) (h : fido.assertionOptions = .ok o) :
    loginChallengeHandler fido s =
      ({ s with currentLoginChallenge := some o.challenge },
       { status := 200,
         body := Json.obj (o.rest ++
           [("allowCredentials", Json.arr []),
            ("challenge", Json.str (base64Encode o.challenge))]) }) := by
  simp [loginChallengeHandler, h, encodeAsnOptions]

/-- Witness for C5 at a concrete engine and the initial state. -/
theorem loginChallenge_success_behavior_instance :
    loginChallengeHandler succeedingEngine initialState =
      ({ initialState with currentLoginChallenge := some [12, 13] },
       { status := 200,
         body := Json.obj
           [("allowCredentials", Json.arr []),
            ("challenge", Json.str (base64Encode [12, 13]))] }) :=
  loginChallenge_success_behavior succeedingEngine
    { challenge := [12, 13], rest := [] } initialState rfl

/-- Claim C3: each flow type has a single challenge slot (`Option Bytes` in
`ServerState`, so at most one live challenge per flow by construction); each
successful issuance overwrites the prior challenge of its flow, and a
verification call builds its engine expectation from exactly the most recently
issued challenge of its flow.  In particular, after issuing a registration
challenge twice in succession with the engine producing two different values,
the slot and the expectation passed to a subsequent verification hold only the
second value, not the first. -/
theorem challenge_overwrite_latest_used (f1 f2 : Fido2Lib)
    (o1 o2 : RegOptions) (a1 a2 : AsnOptions) (s : ServerState)
    (hr1 : f1.attestationOptions = .ok o1) (hr2 : f2.attestationOptions = .ok o2)
    (hl1 : f1.assertionOptions = .ok a1) (hl2 : f2.assertionOptions = .ok a2)
    (hne : o1.challenge ≠ o2.challenge) :
    ((registerChallengeHandler f1 s).1.currentRegisterChallenge = some o1.challenge) ∧
    ((registerChallengeHandler f2 (registerChallengeHandler f1 s).1).1.currentRegisterChallenge
        = some o2.challenge) ∧
    ((loginChallengeHandler f2 (loginChallengeHandler f1 s).1).1.currentLoginChallenge
        = some a2.challenge) ∧
    (regExpect (registerChallengeHandler f2 (registerChallengeHandler f1 s).1).1
        = { challenge := some o2.challenge, origin := expectedOrigin, factor := "either" }) ∧
    (regExpect (registerChallengeHandler f2 (registerChallengeHandler f1 s).1).1).challenge
        ≠ some o1.challenge := by
  refine ⟨?_, ?_, ?_, ?_, ?_⟩
  · simp [registerChallengeHandler, hr1]
  · simp [registerChallengeHandler, hr1, hr2]
  · simp [loginChallengeHandler, hl1, hl2]
  · simp [registerChallengeHandler, hr1, hr2, regExpect]
  · simp [registerChallengeHandler, hr1, hr2, regExpect]
    exact fun hcontra => hne hcontra.symm

/-- Witness for C3 at two concrete engines issuing different challenges. -/
theorem challenge_overwrite_latest_used_instance :
    ((registerChallengeHandler succeedingEngine initialState).1.currentRegisterChallenge
        = some [10, 11]) ∧
    ((registerChallengeHandler succeedingEngineB
        (registerChallengeHandler succeedingEngine initialState).1).1.currentRegisterChallenge
        = some [20, 21]) ∧
    ((loginChallengeHandler succeedingEngineB
        (loginChallengeHandler succeedingEngine initialState).1).1.currentLoginChallenge
        = some [22, 23]) ∧
    (regExpect (registerChallengeHandler succeedingEngineB
        (registerChallengeHandler succeedingEngine initialState).1).1
        = { challenge := some [20, 21], origin := expectedOrigin, factor := "either" }) ∧
    (regExpect (registerChallengeHandler succeedingEngineB
        (registerChallengeHandler succeedingEngine initialState).1).1).challenge
        ≠ some [10, 11] :=
  challenge_overwrite_latest_used succeedingEngine succeedingEngineB
    { challenge := [10, 11], rest := [] } { challenge := [20, 21], rest := [] }
    { challenge := [12, 13], rest := [] } { challenge := [22, 23], rest := [] }
    initialState rfl rfl rfl rfl (by decide)

/-- Claim C6: `POST /verify-login` never writes back an updated signature
counter: on every state with a stored credential, after the call (whether the
engine accepts or rejects, for any engine and body) the whole state is
unchanged and the stored record — public key, counter and user handle — is
identical to its value before the call. -/
theorem verifyLogin_preserves_credential (fido : Fido2Lib) (reqBody : Json)
    (s : ServerState) (d : AuthnrData)
    (h : mapGet s.users "testuser" = some d) :
    (verifyLoginHandler fido reqBody s).1 = s ∧
    mapGet (verifyLoginHandler fido reqBody s).1.users "testuser" = some d := by
  have hstate : (verifyLoginHandler fido reqBody s).1 = s := by
    unfold verifyLoginHandler
    split
    · rfl
    · split <;> rfl
  exact ⟨hstate, by rw [hstate, h]⟩

/-- Witness for C6 at a registered state and a rejecting engine. -/
theorem verifyLogin_preserves_credential_instance :
    (verifyLoginHandler failingEngine Json.null registeredState).1 = registeredState ∧
    mapGet (verifyLoginHandler failingEngine Json.null registeredState).1.users "testuser"
      = some sampleAD :=
  verifyLogin_preserves_credential failingEngine Json.null registeredState sampleAD rfl

/-- Claim C7: engine failures map to HTTP statuses by operation kind.  A
failure of challenge issuance (either `GET` handler) yields HTTP 500 with
body `{error}` carrying the error's text and an unchanged state; a failure of
verification (either `POST` handler) yields HTTP 400 with the structured
`{status:"failed", error}` body and an unchanged state. -/
theorem engine_failure_status_mapping (fido : Fido2Lib) (reqBody : Json)
    (s : ServerState) (e : String) :
    (fido.attestationOptions = .error e →
        registerChallengeHandler fido s =
          (s, { status := 500, body := Json.obj [("error", Json.str e)] })) ∧
    (fido.assertionOptions = .error e →
        loginChallengeHandler fido s =
          (s, { status := 500, body := Json.obj [("error", Json.str e)] })) ∧
    (fido.attestationResult reqBody (regExpect s) = .error e →
        verifyRegisterHandler fido reqBody s =
          (s, { status := 400,
                body := Json.obj [("status", Json.str "failed"),
                                  ("error", Json.str e)] })) ∧
    (∀ d, mapGet s.users "testuser" = some d →
        fido.assertionResult reqBody (loginExpect s d) = .error e →
          verifyLoginHandler fido reqBody s =
            (s, { status := 400,
                  body := Json.obj [("status", Json.str "failed"),
                                    ("error", Json.str e)] })) := by
  refine ⟨?_, ?_, ?_, ?_⟩
  · intro h
    simp [registerChallengeHandler, h, serverErrorResponse]
  · intro h
    simp [loginChallengeHandler, h, serverErrorResponse]
  · intro h
    simp [verifyRegisterHandler, h, failedResponse]
  · intro d hd h
    simp [verifyLoginHandler, hd, h, failedResponse]

/-- Witness for C7: on an engine on which every operation fails with `boom`,
the two challenge handlers answer 500 and the two verification handlers answer
400, each leaving the registered state unchanged. -/
theorem engine_failure_status_mapping_instance :
    registerChallengeHandler failingEngine registeredState =
      (registeredState,
       { status := 500, body := Json.obj [("error", Json.str "boom")] }) ∧
    loginChallengeHandler failingEngine registeredState =
      (registeredState,
       { status := 500, body := Json.obj [("error", Json.str "boom")] }) ∧
    verifyRegisterHandler failingEngine Json.null registeredState =
      (registeredState,
       { status := 400,
         body := Json.obj [("status", Json.str "failed"),
                           ("error", Json.str "boom")] }) ∧
    verifyLoginHandler failingEngine Json.null registeredState =
      (registeredState,
       { status := 400,
         body := Json.obj [("status", Json.str "failed"),
                           ("error", Json.str "boom")] }) :=
  ⟨(engine_failure_status_mapping failingEngine Json.null registeredState "boom").1 rfl,
   (engine_failure_status_mapping failingEngine Json.null registeredState "boom").2.1 rfl,
   (engine_failure_status_mapping failingEngine Json.null registeredState "boom").2.2.1 rfl,
   (engine_failure_status_mapping failingEngine Json.null registeredState "boom").2.2.2
      sampleAD rfl rfl⟩

/-- Claim C8: verification reads a challenge without destroying it.  For every
engine, body and state, neither `POST /verify-register` nor
`POST /verify-login` changes either challenge slot, and the expectation a
repeated verification call of the same flow would build is the same before
and after the call. -/
theorem verify_preserves_challenge_slots (fido : Fido2Lib) (reqBody : Json)
    (s : ServerState) :
    ((verifyRegisterHandler fido reqBody s).1.currentRegisterChallenge
        = s.currentRegisterChallenge) ∧
    ((verifyRegisterHandler fido reqBody s).1.currentLoginChallenge
        = s.currentLoginChallenge) ∧
    ((verifyLoginHandler fido reqBody s).1.currentRegisterChallenge
        = s.currentRegisterChallenge) ∧
    ((verifyLoginHandler fido reqBody s).1.currentLoginChallenge
        = s.currentLoginChallenge) ∧
    (regExpect (verifyRegisterHandler fido reqBody s).1 = regExpect s) ∧
    (∀ d, loginExpect (verifyLoginHandler fido reqBody s).1 d = loginExpect s d) := by
  have hreg : (verifyRegisterHandler fido reqBody s).1.currentRegisterChallenge
        = s.currentRegisterChallenge ∧
      (verifyRegisterHandler fido reqBody s).1.currentLoginChallenge
        = s.currentLoginChallenge := by
    unfold verifyRegisterHandler
    split <;> exact ⟨rfl, rfl⟩
  have hlog : (verifyLoginHandler fido reqBody s).1 = s := by
    unfold verifyLoginHandler
    split
    · rfl
    · split <;> rfl
  obtain ⟨h1, h2⟩ := hreg
  refine ⟨h1, h2, by rw [hlog], by rw [hlog], ?_, fun d => by rw [hlog]⟩
  simp [regExpect, h1]

/-- Claim C9: `POST /verify-register` has no local guard for a missing
challenge.  On every state in which no registration challenge has ever been
issued, the handler still invokes the engine's registration-verification with
a `null` expected challenge — its outcome is entirely the engine's verdict at
that null-challenge expectation: success stores the credential and answers ok,
and any failure on this path is an engine failure answered as a 400. -/
theorem verifyRegister_null_challenge_no_guard (fido : Fido2Lib) (reqBody : Json)
    (s : ServerState) (h : s.currentRegisterChallenge = none) :
    (∀ a, fido.attestationResult reqBody
          { challenge := none, origin := expectedOrigin, factor := "either" } = .ok a →
        verifyRegisterHandler fido reqBody s =
          ({ s with users := mapSet s.users "testuser" a.authnrData },
           { status := 200, body := Json.obj [("status", Json.str "ok")] })) ∧
    (∀ e, fido.attestationResult reqBody
          { challenge := none, origin := expectedOrigin, factor := "either" } = .error e →
        verifyRegisterHandler fido reqBody s =
          (s, { status := 400,
                body := Json.obj [("status", Json.str "failed"),
                                  ("error", Json.str e)] })) := by
  have hexp : regExpect s =
      { challenge := none, origin := expectedOrigin, factor := "either" } := by
    simp [regExpect, h]
  constructor
  · intro a ha
    simp [verifyRegisterHandler, hexp, ha, okResponse]
  · intro e he
    simp [verifyRegisterHandler, hexp, he, failedResponse]

/-- Witness for C9: at the initial state (no challenge ever issued) the
handler's outcome tracks the engine: a succeeding engine stores a credential
and answers ok, a failing engine produces the 400 failure. -/
theorem verifyRegister_null_challenge_no_guard_instance :
    verifyRegisterHandler succeedingEngine Json.null initialState =
      ({ initialState with users := mapSet initialState.users "testuser" sampleAD },
       { status := 200, body := Json.obj [("status", Json.str "ok")] }) ∧
    verifyRegisterHandler failingEngine Json.null initialState =
      (initialState,
       { status := 400,
         body := Json.obj [("status", Json.str "failed"),
                           ("error", Json.str "boom")] }) :=
  ⟨(verifyRegister_null_challenge_no_guard succeedingEngine Json.null initialState rfl).1
      { authnrData := sampleAD } rfl,
   (verifyRegister_null_challenge_no_guard failingEngine Json.null initialState rfl).2
      "boom" rfl⟩

/-- Claim C10: `GET /.well-known/apple-app-site-association` is a pure
responder.  For every pair of requests (any headers, any bodies) and every
pair of states, it returns the same fixed response, mutates no store, and the
returned document — syntactically valid JSON by construction, being a `Json`
value — mentions the configured application identifier among its string
leaves. -/
theorem appleAASA_pure_responder (req1 req2 : Request) (s1 s2 : ServerState) :
    appleAASAHandler req1 s1 = (s1, { status := 200, body := appleAASADocument }) ∧
    (appleAASAHandler req1 s1).2 = (appleAASAHandler req2 s2).2 ∧
    appleAppId ∈ Json.strings appleAASADocument := by
  refine ⟨rfl, rfl, ?_⟩
  have hs : Json.strings appleAASADocument = [appleAppId, appleAppId] := rfl
  rw [hs]
  exact List.mem_cons_self _ _

end PasskeyServer
